import Mathlib

/-!
# `client/debug_client.js`

A shallow embedding of the browser-console debug client of the broadcast
server.  The script constructs one `WebSocket`, installs three event
handlers (`onopen`, `onmessage`, `onclose`) and registers one interval
timer whose callback sends a ping.

The script itself only *calls* `console.log`, `ws.send`, `new WebSocket`
and `setInterval`; these four capabilities belong to the browser.  They
are modelled here as small state transformers on a `World` record, after
the WebSocket and HTML standards:

* `readyState` goes `CONNECTING → OPEN → CLOSING → CLOSED` and never
  backwards; it becomes `CLOSING` when the closing handshake starts (the
  Close frame of the server arrives), which no handler of the script
  observes, and `CLOSED` when the close event is dispatched;
* `send` throws `InvalidStateError` while `CONNECTING`, transmits while
  `OPEN`, and silently discards the data once the socket is closing or
  closed;
* an uncaught exception ends the running handler only.
-/

namespace DebugClient

/-! ## Data model -/

/-- The `readyState` of the socket `ws`. -/
inductive ReadyState where
  | Connecting
  | Open
  | Closing
  | Closed
  deriving DecidableEq

/-- The events the script reacts to: the three socket events for which it
installs a handler, and the firing of its interval timer. -/
inductive Event where
  | wsOpen
  | wsMessage (data : String)
  | wsClose
  | timerTick
  deriving DecidableEq

/-- A call issued by the script, in program order: `console.log(args...)`
or `ws.send(data)`. -/
inductive Call where
  | log (args : List String)
  | send (data : String)
  deriving DecidableEq

/-- How a JavaScript function body ends: normally, or with an exception
(identified by its name) that nothing caught. -/
inductive Completion where
  | normal
  | throw (name : String)
  deriving DecidableEq

/-- Everything the script can observe or change. -/
structure World where
  /-- URLs passed to `new WebSocket(...)`, one per constructor call. -/
  sockets : List String
  /-- The `readyState` of `ws`. -/
  readyState : ReadyState
  /-- Messages actually handed to the network, in order. -/
  transmitted : List String
  /-- Periods (ms) of the interval timers registered and not cleared. -/
  intervals : List Nat
  /-- Every `console.log` / `ws.send` call issued so far, in order. -/
  calls : List Call
  deriving DecidableEq

/-- The console output: the arguments of each `console.log` call. -/
def console (w : World) : List (List String) :=
  w.calls.filterMap fun c =>
    match c with
    | Call.log args => some args
    | Call.send _ => none

/-- The payloads of the `ws.send` calls issued (attempted), in order. -/
def sends (w : World) : List String :=
  w.calls.filterMap fun c =>
    match c with
    | Call.log _ => none
    | Call.send data => some data

/-! ## Browser capabilities used by the script -/

/-- Sequencing of two statements: the second runs only if the first
completed normally; an exception propagates. -/
def andThen (r : World × Completion) (k : World → World × Completion) :
    World × Completion :=
  match r.2 with
  | Completion.normal => k r.1
  | Completion.throw name => (r.1, Completion.throw name)

/-- The call `console.log(args...)`: records the entry, never throws. -/
def console.log (args : List String) (w : World) : World × Completion :=
  ({ w with calls := w.calls ++ [Call.log args] }, Completion.normal)

/-- The call `ws.send(data)`. -/
def ws.send (data : String) (w : World) : World × Completion :=
  let w1 := { w with calls := w.calls ++ [Call.send data] }
  match w.readyState with
  | ReadyState.Connecting => (w1, Completion.throw "InvalidStateError")
  | ReadyState.Open =>
      ({ w1 with transmitted := w1.transmitted ++ [data] }, Completion.normal)
  | ReadyState.Closing => (w1, Completion.normal)
  | ReadyState.Closed => (w1, Completion.normal)

/-- The expression `new WebSocket(url)`: a socket that is connecting. -/
def newWebSocket (url : String) (w : World) : World :=
  { w with sockets := w.sockets ++ [url], readyState := ReadyState.Connecting }

/-- The call `setInterval(callback, ms)`. -/
def setInterval (ms : Nat) (w : World) : World :=
  { w with intervals := w.intervals ++ [ms] }

/-- The browser establishing the connection: only a connecting socket
becomes open. -/
def established : ReadyState → ReadyState
  | ReadyState.Connecting => ReadyState.Open
  | s => s

/-- The browser starting the closing handshake when the Close frame of the
server arrives: an open socket becomes closing.  No event is dispatched to
the script for it. -/
def closingHandshake (w : World) : World :=
  match w.readyState with
  | ReadyState.Open => { w with readyState := ReadyState.Closing }
  | _ => w

/-! ## The script -/

/-- The endpoint of line 3. -/
def url : String := "ws://localhost:1234/ws"

/-- The second argument of `setInterval` (line 17). -/
def intervalMs : Nat := 500

/-- Lines 5-8: `ws.onopen`. -/
def ws.onopen (w : World) : World × Completion :=
  andThen (console.log ["Connected to WebSocket server"] w)
    (ws.send "Hello from client!")

/-- Lines 10-12: `ws.onmessage`. -/
def ws.onmessage (data : String) (w : World) : World × Completion :=
  console.log ["Received:", data] w

/-- Lines 15-17: the callback given to `setInterval`. -/
def intervalCallback (w : World) : World × Completion :=
  ws.send "Ping from client!" w

/-- Lines 19-21: `ws.onclose`. -/
def ws.onclose (w : World) : World × Completion :=
  console.log ["Disconnected from server"] w

/-- The world before the script runs. -/
def blank : World :=
  { sockets := [], readyState := ReadyState.Closed, transmitted := [],
    intervals := [], calls := [] }

/-- Running the top level of the script: one socket is constructed and one
interval is registered (the handler assignments are the `deliver` table). -/
def load : World :=
  setInterval intervalMs (newWebSocket url blank)

/-- The browser dispatching one event to the script.  The open and close
events update `readyState` before their handler runs; a timer tick runs the
callback of the registered interval.  The change to `CLOSING` is not an
event of the script: it is the separate transition `closingHandshake`. -/
def deliver (e : Event) (w : World) : World × Completion :=
  match e with
  | Event.wsOpen => ws.onopen { w with readyState := established w.readyState }
  | Event.wsMessage data => ws.onmessage data w
  | Event.wsClose => ws.onclose { w with readyState := ReadyState.Closed }
  | Event.timerTick =>
      if w.intervals = [] then (w, Completion.normal) else intervalCallback w

/-- The world after a sequence of events (an uncaught exception ends only
the handler that raised it). -/
def run (es : List Event) (w : World) : World :=
  es.foldl (fun acc e => (deliver e acc).1) w

/-- The completions of the handlers run for a sequence of events. -/
def completions : List Event → World → List Completion
  | [], _ => []
  | e :: es, w => (deliver e w).2 :: completions es (deliver e w).1

/-- The console entry the description assigns to an event: one entry per
socket event, none for a timer tick. -/
def expectedLogEntry : Event → Option (List String)
  | Event.wsOpen => some ["Connected to WebSocket server"]
  | Event.wsMessage data => some ["Received:", data]
  | Event.wsClose => some ["Disconnected from server"]
  | Event.timerTick => none

/-- An event sequence the transport can produce: at most one open event,
and no open event after a message or close event. -/
def respectsProtocol (es : List Event) : Bool :=
  decide (es.count Event.wsOpen ≤ 1) &&
    !((es.dropWhile fun e =>
        match e with
        | Event.wsMessage _ => false
        | Event.wsClose => false
        | _ => true).contains Event.wsOpen)

/-! ## Runs in which the server may start the closing handshake -/

/-- What can happen next: the browser dispatches an event to the script, or
the Close frame of the server arrives. -/
inductive Step where
  | dispatch (e : Event)
  | closeFrame
  deriving DecidableEq

/-- One step of the browser. -/
def step (s : Step) (w : World) : World :=
  match s with
  | Step.dispatch e => (deliver e w).1
  | Step.closeFrame => closingHandshake w

/-- The world after a sequence of steps. -/
def runSteps (ss : List Step) (w : World) : World :=
  ss.foldl (fun acc s => step s acc) w

/-- The events dispatched to the script during a sequence of steps. -/
def scriptEvents (ss : List Step) : List Event :=
  ss.filterMap fun s =>
    match s with
    | Step.dispatch e => some e
    | Step.closeFrame => none

/-- Number of timer ticks of `ss` that fire while `readyState` is `OPEN`,
read off the socket at the moment each tick fires. -/
def openTicks : List Step → World → Nat
  | [], _ => 0
  | s :: ss, w =>
      (if s = Step.dispatch Event.timerTick ∧ w.readyState = ReadyState.Open
        then 1 else 0)
        + openTicks ss (step s w)

/-- The step that dispatches the open event. -/
def isOpenStep : Step → Bool
  | Step.dispatch Event.wsOpen => true
  | _ => false

/-- A step after which the socket is no longer open: the Close frame of the
server, or the close event. -/
def leavesOpen : Step → Bool
  | Step.closeFrame => true
  | Step.dispatch Event.wsClose => true
  | _ => false

/-- Number of timer ticks that lie after the first open event and before
the first Close frame or close event that follows it, counted on the
sequence of steps alone. -/
def ticksAfterOpen (ss : List Step) : Nat :=
  (((ss.dropWhile fun s => !isOpenStep s).drop 1).takeWhile
      fun s => !leavesOpen s).count (Step.dispatch Event.timerTick)

/-- A run in which two ticks fire before the open event, one while the
socket is open, one after the Close frame of the server and one after the
close event. -/
def closingRun : List Step :=
  [Step.dispatch Event.timerTick, Step.dispatch Event.timerTick,
   Step.dispatch Event.wsOpen, Step.dispatch Event.timerTick,
   Step.dispatch (Event.wsMessage "hi"), Step.closeFrame,
   Step.dispatch Event.timerTick, Step.dispatch Event.wsClose,
   Step.dispatch Event.timerTick]

/-! ## The interval timer on a millisecond clock -/

/-- Let `n` milliseconds pass, starting at time `now`.  The interval of
period `p` whose next deadline is `due` fires each time the clock reaches
the deadline; the result is the final world and the times of the firings. -/
def elapse : Nat → Nat → Nat → Nat → World → World × List Nat
  | 0, _, _, _, w => (w, [])
  | n + 1, now, due, p, w =>
      if now + 1 = due then
        let r := elapse n (now + 1) (due + p) p (deliver Event.timerTick w).1
        (r.1, (now + 1) :: r.2)
      else
        elapse n (now + 1) due p w

/-- Times (ms after the script ran) of the ping attempts made during the
first `n` milliseconds, no socket event arriving meanwhile. -/
def pingTimes (n : Nat) : List Nat :=
  (elapse n 0 intervalMs intervalMs load).2

/-! ## Basic facts about one dispatch -/

theorem deliver_sockets (e : Event) (w : World) :
    (deliver e w).1.sockets = w.sockets := by
  cases e <;> cases h : w.readyState <;>
    simp [deliver, ws.onopen, ws.onmessage, ws.onclose, intervalCallback,
      andThen, console.log, ws.send, established, h] <;>
    split <;> simp [h]

theorem deliver_intervals (e : Event) (w : World) :
    (deliver e w).1.intervals = w.intervals := by
  cases e <;> cases h : w.readyState <;>
    simp [deliver, ws.onopen, ws.onmessage, ws.onclose, intervalCallback,
      andThen, console.log, ws.send, established, h] <;>
    split <;> simp [h]

theorem deliver_readyState (e : Event) (w : World) :
    (deliver e w).1.readyState =
      match e with
      | Event.wsOpen => established w.readyState
      | Event.wsClose => ReadyState.Closed
      | _ => w.readyState := by
  cases e <;> cases h : w.readyState <;>
    simp [deliver, ws.onopen, ws.onmessage, ws.onclose, intervalCallback,
      andThen, console.log, ws.send, established, h] <;>
    split <;> simp [h]

theorem deliver_calls (e : Event) (w : World) :
    (deliver e w).1.calls =
      w.calls ++
        match e with
        | Event.wsOpen =>
            [Call.log ["Connected to WebSocket server"],
             Call.send "Hello from client!"]
        | Event.wsMessage data => [Call.log ["Received:", data]]
        | Event.wsClose => [Call.log ["Disconnected from server"]]
        | Event.timerTick =>
            if w.intervals = [] then [] else [Call.send "Ping from client!"] := by
  cases e <;> cases h : w.readyState <;>
    simp [deliver, ws.onopen, ws.onmessage, ws.onclose, intervalCallback,
      andThen, console.log, ws.send, established, h] <;>
    split <;> simp [h]

theorem deliver_transmitted (e : Event) (w : World) :
    (deliver e w).1.transmitted =
      w.transmitted ++
        match e with
        | Event.wsOpen =>
            if established w.readyState = ReadyState.Open then
              ["Hello from client!"]
            else []
        | Event.timerTick =>
            if w.readyState = ReadyState.Open ∧ w.intervals ≠ [] then
              ["Ping from client!"]
            else []
        | _ => [] := by
  cases e <;> cases h : w.readyState <;>
    simp [deliver, ws.onopen, ws.onmessage, ws.onclose, intervalCallback,
      andThen, console.log, ws.send, established, h] <;>
    split <;> simp [h]

/-! ## Facts about runs -/

theorem run_nil (w : World) : run [] w = w := rfl

theorem run_cons (e : Event) (es : List Event) (w : World) :
    run (e :: es) w = run es (deliver e w).1 := rfl

theorem run_append (es1 es2 : List Event) (w : World) :
    run (es1 ++ es2) w = run es2 (run es1 w) := by
  simp [run, List.foldl_append]

theorem run_sockets (es : List Event) (w : World) :
    (run es w).sockets = w.sockets := by
  induction es generalizing w with
  | nil => rfl
  | cons e es ih => rw [run_cons, ih, deliver_sockets]

theorem run_intervals (es : List Event) (w : World) :
    (run es w).intervals = w.intervals := by
  induction es generalizing w with
  | nil => rfl
  | cons e es ih => rw [run_cons, ih, deliver_intervals]

theorem run_closed (es : List Event) (w : World)
    (h : w.readyState = ReadyState.Closed) :
    (run es w).readyState = ReadyState.Closed := by
  induction es generalizing w with
  | nil => exact h
  | cons e es ih =>
      rw [run_cons]
      apply ih
      rw [deliver_readyState]
      cases e <;> simp [h, established]

theorem load_sockets : load.sockets = [url] := rfl

theorem load_intervals : load.intervals = [intervalMs] := rfl

theorem console_deliver (e : Event) (w : World) :
    console (deliver e w).1 = console w ++ (expectedLogEntry e).toList := by
  unfold console
  rw [deliver_calls, List.filterMap_append]
  cases e <;> simp [expectedLogEntry]

theorem console_run (es : List Event) (w : World) :
    console (run es w) = console w ++ es.filterMap expectedLogEntry := by
  induction es generalizing w with
  | nil => simp [run_nil]
  | cons e es ih =>
      rw [run_cons, ih, console_deliver]
      cases e <;> simp [expectedLogEntry]

theorem sends_deliver (e : Event) (w : World) :
    sends (deliver e w).1 =
      sends w ++
        match e with
        | Event.wsOpen => ["Hello from client!"]
        | Event.timerTick =>
            if w.intervals = [] then [] else ["Ping from client!"]
        | _ => [] := by
  unfold sends
  rw [deliver_calls, List.filterMap_append]
  cases e <;> simp
  split <;> simp

theorem ping_count_run (es : List Event) (w : World) (h : w.intervals ≠ []) :
    (sends (run es w)).count "Ping from client!" =
      (sends w).count "Ping from client!" + es.count Event.timerTick := by
  induction es generalizing w with
  | nil => simp [run_nil]
  | cons e es ih =>
      rw [run_cons, ih _ (by rw [deliver_intervals]; exact h), sends_deliver]
      cases e <;> simp [h, List.count_cons, List.count_append]
      omega

/-! ## Facts about the interval timer -/

theorem elapse_times (n now d p : Nat) (w : World) (hp : 0 < p)
    (hd : 1 ≤ d) (hdp : d ≤ p) :
    (elapse n now (now + d) p w).2 =
      (List.range ((n + p - d) / p)).map fun i => now + d + p * i := by
  induction n generalizing now d w with
  | zero =>
      have h0 : (0 + p - d) / p = 0 := Nat.div_eq_of_lt (by omega)
      rw [h0]
      rfl
  | succ n ih =>
      unfold elapse
      by_cases h1 : d = 1
      · subst h1
        have hq : (n + 1 + p - 1) / p = n / p + 1 := by
          rw [show n + 1 + p - 1 = n + p by omega, Nat.add_div_right n hp]
        have hq2 : (n + p - p) / p = n / p := by
          rw [Nat.add_sub_cancel]
        simp only [if_true, hq, List.range_succ_eq_map, List.map_cons,
          List.map_map]
        rw [show now + 1 + p = now + 1 + p from rfl,
          ih (now + 1) p _ (by omega) (le_refl p), hq2]
        simp only [Nat.mul_zero, Nat.add_zero, List.cons.injEq, true_and]
        apply List.map_congr_left
        intro i _
        simp only [Function.comp, Nat.mul_succ]
        omega
      · have hne : ¬ (now + 1 = now + d) := by omega
        simp only [hne, if_false]
        have hd2 : now + d = now + 1 + (d - 1) := by omega
        rw [hd2, ih (now + 1) (d - 1) w (by omega) (by omega)]
        have hq : (n + p - (d - 1)) / p = (n + 1 + p - d) / p := by
          congr 1
          omega
        rw [hq]

theorem elapse_world (n now due p : Nat) (w : World) :
    (elapse n now due p w).1 =
      run (List.replicate (elapse n now due p w).2.length Event.timerTick) w := by
  induction n generalizing now due w with
  | zero => simp [elapse, run_nil]
  | succ n ih =>
      unfold elapse
      by_cases h : now + 1 = due
      · simp only [h, if_true, List.length_cons, List.replicate_succ, run_cons]
        rw [← h]
        exact ih _ _ _
      · simp only [h, if_false]
        exact ih _ _ _

theorem pingTimes_eq (n : Nat) :
    pingTimes n = (List.range (n / 500)).map fun i => 500 * (i + 1) := by
  unfold pingTimes
  have h := elapse_times n 0 intervalMs intervalMs load (by decide) (by decide)
    (le_refl _)
  rw [Nat.zero_add] at h
  rw [h]
  have hq : (n + intervalMs - intervalMs) / intervalMs = n / 500 := by
    rw [Nat.add_sub_cancel]
    rfl
  rw [hq]
  apply List.map_congr_left
  intro i _
  simp only [intervalMs]
  omega

theorem sends_run_ticks (k : Nat) (w : World) (h : w.intervals ≠ []) :
    sends (run (List.replicate k Event.timerTick) w) =
      sends w ++ List.replicate k "Ping from client!" := by
  induction k generalizing w with
  | zero => simp [run_nil]
  | succ k ih =>
      rw [List.replicate_succ, run_cons,
        ih _ (by rw [deliver_intervals]; exact h), sends_deliver]
      simp [h, List.replicate_succ]

/-! ## Facts about what reaches the network -/

theorem runSteps_nil (w : World) : runSteps [] w = w := rfl

theorem runSteps_cons (s : Step) (ss : List Step) (w : World) :
    runSteps (s :: ss) w = runSteps ss (step s w) := rfl

theorem runSteps_dispatch (es : List Event) (w : World) :
    runSteps (es.map Step.dispatch) w = run es w := by
  induction es generalizing w with
  | nil => rfl
  | cons e es ih => rw [List.map_cons, runSteps_cons, run_cons, ← ih]; rfl

theorem scriptEvents_dispatch (e : Event) (ss : List Step) :
    scriptEvents (Step.dispatch e :: ss) = e :: scriptEvents ss := rfl

theorem scriptEvents_closeFrame (ss : List Step) :
    scriptEvents (Step.closeFrame :: ss) = scriptEvents ss := rfl

theorem step_intervals (s : Step) (w : World) :
    (step s w).intervals = w.intervals := by
  cases s with
  | dispatch e => exact deliver_intervals e w
  | closeFrame =>
      cases h : w.readyState <;> simp [step, closingHandshake, h]

theorem protocol_after_open (es : List Event)
    (h : respectsProtocol (Event.wsOpen :: es) = true) :
    Event.wsOpen ∉ es := by
  unfold respectsProtocol at h
  simp only [Bool.and_eq_true, decide_eq_true_eq, List.count_cons_self] at h
  have h0 : es.count Event.wsOpen = 0 := by omega
  exact List.count_eq_zero.1 h0

theorem protocol_after_tick (es : List Event)
    (h : respectsProtocol (Event.timerTick :: es) = true) :
    respectsProtocol es = true := by
  unfold respectsProtocol at h ⊢
  simpa [List.count_cons, List.dropWhile_cons] using h

theorem protocol_after_message (data : String) (es : List Event)
    (h : respectsProtocol (Event.wsMessage data :: es) = true) :
    Event.wsOpen ∉ es := by
  unfold respectsProtocol at h
  simp [List.dropWhile_cons] at h
  exact h.2

theorem protocol_after_close (es : List Event)
    (h : respectsProtocol (Event.wsClose :: es) = true) :
    Event.wsOpen ∉ es := by
  unfold respectsProtocol at h
  simp [List.dropWhile_cons] at h
  exact h.2

theorem transmitted_not_open (ss : List Step) (w : World)
    (h : w.readyState ≠ ReadyState.Open)
    (ho : Event.wsOpen ∉ scriptEvents ss) :
    (runSteps ss w).transmitted = w.transmitted ∧ openTicks ss w = 0 := by
  induction ss generalizing w with
  | nil => exact ⟨rfl, rfl⟩
  | cons s ss ih =>
      cases s with
      | closeFrame =>
          rw [scriptEvents_closeFrame] at ho
          have hw : step Step.closeFrame w = w := by
            cases h2 : w.readyState <;> simp_all [step, closingHandshake]
          obtain ⟨h1, h2⟩ := ih w h ho
          refine ⟨by rw [runSteps_cons, hw, h1], ?_⟩
          simp [openTicks, hw, h2]
      | dispatch e =>
          rw [scriptEvents_dispatch] at ho
          have hne : e ≠ Event.wsOpen := fun he => ho (by simp [he])
          have ho2 : Event.wsOpen ∉ scriptEvents ss :=
            fun hm => ho (List.mem_cons_of_mem _ hm)
          have hs : (step (Step.dispatch e) w).readyState
              ≠ ReadyState.Open := by
            show (deliver e w).1.readyState ≠ ReadyState.Open
            rw [deliver_readyState]
            cases e <;> simp_all
          have ht : (step (Step.dispatch e) w).transmitted
              = w.transmitted := by
            show (deliver e w).1.transmitted = w.transmitted
            rw [deliver_transmitted]
            cases e <;> simp_all
          obtain ⟨h1, h2⟩ := ih _ hs ho2
          refine ⟨by rw [runSteps_cons, h1, ht], ?_⟩
          simp [openTicks, h2, h]

theorem transmitted_open (ss : List Step) (w : World)
    (h : w.readyState = ReadyState.Open) (hi : w.intervals ≠ [])
    (ho : Event.wsOpen ∉ scriptEvents ss) :
    (runSteps ss w).transmitted =
      w.transmitted ++
        List.replicate
          ((ss.takeWhile fun s => !leavesOpen s).count
            (Step.dispatch Event.timerTick))
          "Ping from client!" ∧
    openTicks ss w =
      (ss.takeWhile fun s => !leavesOpen s).count
        (Step.dispatch Event.timerTick) := by
  induction ss generalizing w with
  | nil => simp [runSteps_nil, openTicks]
  | cons s ss ih =>
      have hi2 : (step s w).intervals ≠ [] := by
        rw [step_intervals]; exact hi
      cases s with
      | closeFrame =>
          rw [scriptEvents_closeFrame] at ho
          have hs : (step Step.closeFrame w).readyState
              ≠ ReadyState.Open := by
            simp [step, closingHandshake, h]
          have ht : (step Step.closeFrame w).transmitted
              = w.transmitted := by
            simp [step, closingHandshake, h]
          obtain ⟨h1, h2⟩ := transmitted_not_open ss _ hs ho
          refine ⟨?_, ?_⟩
          · rw [runSteps_cons, h1, ht]
            simp [List.takeWhile_cons, leavesOpen]
          · simp [openTicks, h2, List.takeWhile_cons, leavesOpen]
      | dispatch e =>
          rw [scriptEvents_dispatch] at ho
          have ho2 : Event.wsOpen ∉ scriptEvents ss :=
            fun hm => ho (List.mem_cons_of_mem _ hm)
          cases e with
          | wsOpen => simp at ho
          | wsMessage data =>
              have hs : (step (Step.dispatch (Event.wsMessage data)) w).readyState
                  = ReadyState.Open := by
                show (deliver _ w).1.readyState = _
                rw [deliver_readyState]; exact h
              have ht : (step (Step.dispatch (Event.wsMessage data)) w).transmitted
                  = w.transmitted := by
                show (deliver _ w).1.transmitted = _
                rw [deliver_transmitted]; simp
              obtain ⟨h1, h2⟩ := ih _ hs hi2 ho2
              refine ⟨?_, ?_⟩
              · rw [runSteps_cons, h1, ht]
                simp [List.takeWhile_cons, leavesOpen, List.count_cons]
              · simp [openTicks, h2, List.takeWhile_cons, leavesOpen,
                  List.count_cons]
          | wsClose =>
              have hs : (step (Step.dispatch Event.wsClose) w).readyState
                  ≠ ReadyState.Open := by
                show (deliver _ w).1.readyState ≠ _
                rw [deliver_readyState]; simp
              have ht : (step (Step.dispatch Event.wsClose) w).transmitted
                  = w.transmitted := by
                show (deliver _ w).1.transmitted = _
                rw [deliver_transmitted]; simp
              obtain ⟨h1, h2⟩ := transmitted_not_open ss _ hs ho2
              refine ⟨?_, ?_⟩
              · rw [runSteps_cons, h1, ht]
                simp [List.takeWhile_cons, leavesOpen]
              · simp [openTicks, h2, List.takeWhile_cons, leavesOpen]
          | timerTick =>
              have hs : (step (Step.dispatch Event.timerTick) w).readyState
                  = ReadyState.Open := by
                show (deliver _ w).1.readyState = _
                rw [deliver_readyState]; exact h
              have ht : (step (Step.dispatch Event.timerTick) w).transmitted
                  = w.transmitted ++ ["Ping from client!"] := by
                show (deliver _ w).1.transmitted = _
                rw [deliver_transmitted]; simp [h, hi]
              obtain ⟨h1, h2⟩ := ih _ hs hi2 ho2
              refine ⟨?_, ?_⟩
              · rw [runSteps_cons, h1, ht]
                simp [List.takeWhile_cons, leavesOpen, List.count_cons,
                  List.replicate_succ]
              · simp [openTicks, h2, h, List.takeWhile_cons, leavesOpen,
                  List.count_cons, Nat.add_comm]

theorem ticksAfterOpen_no_open (ss : List Step)
    (ho : Event.wsOpen ∉ scriptEvents ss) : ticksAfterOpen ss = 0 := by
  induction ss with
  | nil => rfl
  | cons s ss ih =>
      cases s with
      | closeFrame =>
          rw [scriptEvents_closeFrame] at ho
          have := ih ho
          simpa [ticksAfterOpen, List.dropWhile_cons, isOpenStep] using this
      | dispatch e =>
          rw [scriptEvents_dispatch] at ho
          have ho2 : Event.wsOpen ∉ scriptEvents ss :=
            fun hm => ho (List.mem_cons_of_mem _ hm)
          have := ih ho2
          cases e with
          | wsOpen => simp at ho
          | wsMessage data =>
              simpa [ticksAfterOpen, List.dropWhile_cons, isOpenStep]
                using this
          | wsClose =>
              simpa [ticksAfterOpen, List.dropWhile_cons, isOpenStep]
                using this
          | timerTick =>
              simpa [ticksAfterOpen, List.dropWhile_cons, isOpenStep]
                using this

theorem transmitted_connecting (ss : List Step) (w : World)
    (h : w.readyState = ReadyState.Connecting) (hi : w.intervals ≠ [])
    (hp : respectsProtocol (scriptEvents ss) = true) :
    (runSteps ss w).transmitted =
      w.transmitted ++
        (if Event.wsOpen ∈ scriptEvents ss then
          "Hello from client!" ::
            List.replicate (ticksAfterOpen ss) "Ping from client!"
        else []) ∧
    openTicks ss w = ticksAfterOpen ss := by
  induction ss generalizing w with
  | nil => simp [runSteps_nil, openTicks, scriptEvents, ticksAfterOpen]
  | cons s ss ih =>
      have hi2 : (step s w).intervals ≠ [] := by
        rw [step_intervals]; exact hi
      cases s with
      | closeFrame =>
          rw [scriptEvents_closeFrame] at hp ⊢
          have hw : step Step.closeFrame w = w := by
            simp [step, closingHandshake, h]
          have hk : ticksAfterOpen (Step.closeFrame :: ss)
              = ticksAfterOpen ss := by
            simp [ticksAfterOpen, List.dropWhile_cons, isOpenStep]
          obtain ⟨h1, h2⟩ := ih w h hi hp
          refine ⟨by rw [runSteps_cons, hw, h1, hk], ?_⟩
          simp [openTicks, hw, h2, hk]
      | dispatch e =>
          rw [scriptEvents_dispatch] at hp ⊢
          cases e with
          | wsOpen =>
              have ho := protocol_after_open _ hp
              have hs : (step (Step.dispatch Event.wsOpen) w).readyState
                  = ReadyState.Open := by
                show (deliver _ w).1.readyState = _
                rw [deliver_readyState]; simp [h, established]
              have ht : (step (Step.dispatch Event.wsOpen) w).transmitted
                  = w.transmitted ++ ["Hello from client!"] := by
                show (deliver _ w).1.transmitted = _
                rw [deliver_transmitted]; simp [h, established]
              have hk : ticksAfterOpen (Step.dispatch Event.wsOpen :: ss)
                  = (ss.takeWhile fun s => !leavesOpen s).count
                      (Step.dispatch Event.timerTick) := by
                simp [ticksAfterOpen, List.dropWhile_cons, isOpenStep]
              obtain ⟨h1, h2⟩ := transmitted_open ss _ hs hi2 ho
              refine ⟨?_, ?_⟩
              · rw [runSteps_cons, h1, ht, hk]
                simp
              · simp [openTicks, h2, h, hk]
          | wsMessage data =>
              have ho := protocol_after_message _ _ hp
              have hs : (step (Step.dispatch (Event.wsMessage data)) w).readyState
                  ≠ ReadyState.Open := by
                show (deliver _ w).1.readyState ≠ _
                rw [deliver_readyState]; simp [h]
              have ht : (step (Step.dispatch (Event.wsMessage data)) w).transmitted
                  = w.transmitted := by
                show (deliver _ w).1.transmitted = _
                rw [deliver_transmitted]; simp
              have hk : ticksAfterOpen (Step.dispatch (Event.wsMessage data) :: ss)
                  = 0 :=
                ticksAfterOpen_no_open _ (by
                  rw [scriptEvents_dispatch]; simp [ho])
              obtain ⟨h1, h2⟩ := transmitted_not_open ss _ hs ho
              refine ⟨?_, ?_⟩
              · rw [runSteps_cons, h1, ht]
                simp [ho]
              · simp [openTicks, h2, hk]
          | wsClose =>
              have ho := protocol_after_close _ hp
              have hs : (step (Step.dispatch Event.wsClose) w).readyState
                  ≠ ReadyState.Open := by
                show (deliver _ w).1.readyState ≠ _
                rw [deliver_readyState]; simp
              have ht : (step (Step.dispatch Event.wsClose) w).transmitted
                  = w.transmitted := by
                show (deliver _ w).1.transmitted = _
                rw [deliver_transmitted]; simp
              have hk : ticksAfterOpen (Step.dispatch Event.wsClose :: ss)
                  = 0 :=
                ticksAfterOpen_no_open _ (by
                  rw [scriptEvents_dispatch]; simp [ho])
              obtain ⟨h1, h2⟩ := transmitted_not_open ss _ hs ho
              refine ⟨?_, ?_⟩
              · rw [runSteps_cons, h1, ht]
                simp [ho]
              · simp [openTicks, h2, hk]
          | timerTick =>
              have hp2 := protocol_after_tick _ hp
              have hs : (step (Step.dispatch Event.timerTick) w).readyState
                  = ReadyState.Connecting := by
                show (deliver _ w).1.readyState = _
                rw [deliver_readyState]; exact h
              have ht : (step (Step.dispatch Event.timerTick) w).transmitted
                  = w.transmitted := by
                show (deliver _ w).1.transmitted = _
                rw [deliver_transmitted]; simp [h]
              have hk : ticksAfterOpen (Step.dispatch Event.timerTick :: ss)
                  = ticksAfterOpen ss := by
                simp [ticksAfterOpen, List.dropWhile_cons, isOpenStep]
              obtain ⟨h1, h2⟩ := ih _ hs hi2 hp2
              refine ⟨?_, ?_⟩
              · rw [runSteps_cons, h1, ht, hk]
                simp
              · simp [openTicks, h2, h, hk]

/-- The same events of the script transmit a different number of pings
according to when the Close frame of the server arrives: a tick that fires
after it, before the close event, transmits nothing. -/
theorem closing_window :
    (runSteps [Step.dispatch Event.wsOpen, Step.closeFrame,
        Step.dispatch Event.timerTick, Step.dispatch Event.wsClose,
        Step.dispatch Event.timerTick] load).transmitted
      = ["Hello from client!"] ∧
    openTicks [Step.dispatch Event.wsOpen, Step.closeFrame,
        Step.dispatch Event.timerTick, Step.dispatch Event.wsClose,
        Step.dispatch Event.timerTick] load = 0 ∧
    (runSteps [Step.dispatch Event.wsOpen, Step.dispatch Event.timerTick,
        Step.closeFrame, Step.dispatch Event.wsClose,
        Step.dispatch Event.timerTick] load).transmitted
      = ["Hello from client!", "Ping from client!"] ∧
    openTicks [Step.dispatch Event.wsOpen, Step.dispatch Event.timerTick,
        Step.closeFrame, Step.dispatch Event.wsClose,
        Step.dispatch Event.timerTick] load = 1 := by
  refine ⟨by decide, by decide, by decide, by decide⟩

theorem deliver_agree (e : Event) (w1 w2 : World)
    (hs : w1.readyState = w2.readyState)
    (ht : w1.transmitted = w2.transmitted)
    (hi : w1.intervals = w2.intervals) :
    (deliver e w1).1.readyState = (deliver e w2).1.readyState ∧
    (deliver e w1).1.transmitted = (deliver e w2).1.transmitted ∧
    (deliver e w1).1.intervals = (deliver e w2).1.intervals := by
  refine ⟨?_, ?_, ?_⟩
  · rw [deliver_readyState, deliver_readyState, hs]
  · rw [deliver_transmitted, deliver_transmitted, hs, ht, hi]
  · rw [deliver_intervals, deliver_intervals, hi]

theorem run_agree (es : List Event) (w1 w2 : World)
    (hs : w1.readyState = w2.readyState)
    (ht : w1.transmitted = w2.transmitted)
    (hi : w1.intervals = w2.intervals) :
    (run es w1).transmitted = (run es w2).transmitted := by
  induction es generalizing w1 w2 with
  | nil => exact ht
  | cons e es ih =>
      obtain ⟨a, b, c⟩ := deliver_agree e w1 w2 hs ht hi
      rw [run_cons, run_cons]
      exact ih _ _ a b c

theorem expected_length (es : List Event) :
    (es.filterMap expectedLogEntry).length
      = es.countP (fun e => decide (e ≠ Event.timerTick)) := by
  induction es with
  | nil => rfl
  | cons e es ih =>
      cases e <;> simp [expectedLogEntry, List.countP_cons] <;>
        simpa using ih

/-! ## The claims -/

/-- C1, as stated, fails: right after the script ran the socket is still
connecting, yet the interval is registered and a tick issues the ping send;
after open and close the socket is closed and a tick issues it again. -/
theorem C1_tick_sends_outside_open :
    load.readyState = ReadyState.Connecting ∧
    load.intervals ≠ [] ∧
    sends (deliver Event.timerTick load).1 = ["Ping from client!"] ∧
    (run [Event.wsOpen, Event.wsClose] load).readyState = ReadyState.Closed ∧
    (run [Event.wsOpen, Event.wsClose] load).intervals ≠ [] ∧
    sends (run [Event.wsOpen, Event.wsClose, Event.timerTick] load) =
      ["Hello from client!", "Ping from client!"] := by
  refine ⟨rfl, by decide, by decide, rfl, by decide, by decide⟩

/-- C1, amended: whatever events came before, the interval registered when
the script ran is still registered (nothing clears it), every timer tick
issues exactly one ping send whatever the connection state, and the number
of ping sends attempted equals the number of ticks. -/
theorem C1_ping_attempted_on_every_tick (es : List Event) :
    (run es load).intervals = [intervalMs] ∧
    sends (deliver Event.timerTick (run es load)).1 =
      sends (run es load) ++ ["Ping from client!"] ∧
    (sends (run es load)).count "Ping from client!" =
      es.count Event.timerTick := by
  have hi : (run es load).intervals = [intervalMs] := by
    rw [run_intervals, load_intervals]
  refine ⟨hi, ?_, ?_⟩
  · rw [sends_deliver]
    simp [hi]
  · rw [ping_count_run es load (by decide)]
    have : sends load = [] := rfl
    simp [this]

/-- C2: in every world, dispatching the open event (and likewise running
the `onopen` handler itself) appends to the calls issued exactly the log
entry "Connected to WebSocket server" followed by exactly one send of
"Hello from client!", and nothing else. -/
theorem C2_onopen_logs_then_greets (w : World) :
    (deliver Event.wsOpen w).1.calls =
      w.calls ++ [Call.log ["Connected to WebSocket server"],
                  Call.send "Hello from client!"] ∧
    (ws.onopen w).1.calls =
      w.calls ++ [Call.log ["Connected to WebSocket server"],
                  Call.send "Hello from client!"] := by
  refine ⟨by rw [deliver_calls], ?_⟩
  cases h : w.readyState <;>
    simp [ws.onopen, andThen, console.log, ws.send, h]

/-- C3: the interval is registered with a period of 500 ms, and on an ideal
millisecond clock the k-th ping (k ≥ 1) is attempted 500·k ms after the
registration; during the first n ms exactly n / 500 ping sends are issued. -/
theorem C3_kth_ping_at_500k (n k : Nat) (hk : 1 ≤ k) (hn : 500 * k ≤ n) :
    load.intervals = [500] ∧
    (pingTimes n)[k - 1]? = some (500 * k) ∧
    sends (elapse n 0 intervalMs intervalMs load).1 =
      List.replicate (n / 500) "Ping from client!" := by
  refine ⟨rfl, ?_, ?_⟩
  · rw [pingTimes_eq, List.getElem?_map]
    have hlt : k - 1 < n / 500 := by
      have : k ≤ n / 500 := (Nat.le_div_iff_mul_le (by decide)).2 (by omega)
      omega
    rw [List.getElem?_range hlt]
    simp only [Option.map_some']
    congr 1
    omega
  · rw [elapse_world, sends_run_ticks _ _ (by decide)]
    have hl : (elapse n 0 intervalMs intervalMs load).2.length = n / 500 := by
      have := pingTimes_eq n
      unfold pingTimes at this
      rw [this]
      simp
    rw [hl]
    rfl

/-- Witness for C3: within the first 1600 ms the third ping is attempted
at 1500 ms. -/
theorem C3_kth_ping_at_500k_witness :
    load.intervals = [500] ∧
    (pingTimes 1600)[3 - 1]? = some (500 * 3) ∧
    sends (elapse 1600 0 intervalMs intervalMs load).1 =
      List.replicate (1600 / 500) "Ping from client!" :=
  C3_kth_ping_at_500k 1600 3 (by decide) (by decide)

/-- C4: the code at its failing input.  The period registered is 500 ms,
not the 5000 ms announced by the comment above the call: the first two
pings are attempted at 500 ms and 1000 ms, and ten pings are attempted
within the first five seconds. -/
theorem C4_period_is_500_not_5000 :
    load.intervals = [500] ∧
    load.intervals ≠ [5000] ∧
    pingTimes 1000 = [500, 1000] ∧
    (pingTimes 5000).length = 10 := by
  refine ⟨rfl, by decide, ?_, ?_⟩
  · rw [pingTimes_eq]
    decide
  · rw [pingTimes_eq]
    simp

/-- C5, as stated, fails: on the closed socket reached after open and
close, the ping send completes normally, with no error for the caller; on
the connecting socket the send ends with a thrown `InvalidStateError`, not
with a returned `NotConnected` value. -/
theorem C5_send_reports_no_NotConnected :
    (run [Event.wsOpen, Event.wsClose] load).readyState = ReadyState.Closed ∧
    (ws.send "Ping from client!" (run [Event.wsOpen, Event.wsClose] load)).2 =
      Completion.normal ∧
    load.readyState = ReadyState.Connecting ∧
    (ws.send "Ping from client!" load).2 =
      Completion.throw "InvalidStateError" ∧
    (ws.send "Ping from client!" load).2 ≠ Completion.throw "NotConnected" := by
  refine ⟨rfl, by decide, rfl, by decide, by decide⟩

/-- C5, amended: a send on a socket that is not open drops the message:
the transmitted sequence is unchanged and nothing is kept for later
delivery (whatever events follow, what reaches the network is the same as
if the send had not been issued).  The caller gets no `NotConnected`
value: on a connecting socket the send throws `InvalidStateError`, on a
closed socket (and on a closing one) it returns normally.  A send on an
open socket returns normally and appends exactly that message to the
transmitted sequence. -/
theorem C5_send_by_ready_state (data : String) (w : World) :
    (w.readyState ≠ ReadyState.Open →
      (ws.send data w).1.transmitted = w.transmitted ∧
      ∀ es, (run es (ws.send data w).1).transmitted
              = (run es w).transmitted) ∧
    (w.readyState = ReadyState.Connecting →
      (ws.send data w).2 = Completion.throw "InvalidStateError") ∧
    (w.readyState = ReadyState.Closed →
      (ws.send data w).2 = Completion.normal) ∧
    (w.readyState = ReadyState.Open →
      (ws.send data w).2 = Completion.normal ∧
      (ws.send data w).1.transmitted = w.transmitted ++ [data]) ∧
    (w.readyState = ReadyState.Closing →
      (ws.send data w).2 = Completion.normal) := by
  refine ⟨?_, ?_, ?_, ?_, ?_⟩
  · intro h
    have hs : (ws.send data w).1.readyState = w.readyState := by
      cases h2 : w.readyState <;> simp [ws.send, h2]
    have ht : (ws.send data w).1.transmitted = w.transmitted := by
      cases h2 : w.readyState <;> simp [ws.send, h2] at h ⊢
    have hi : (ws.send data w).1.intervals = w.intervals := by
      cases h2 : w.readyState <;> simp [ws.send, h2]
    exact ⟨ht, fun es => run_agree es _ _ hs ht hi⟩
  · intro h
    simp [ws.send, h]
  · intro h
    simp [ws.send, h]
  · intro h
    simp [ws.send, h]
  · intro h
    simp [ws.send, h]

/-- Witness for C5: the ping on the connecting socket of the freshly loaded
script, on the closed socket after open and close, on the open socket
after open, and on the closing socket after open and the Close frame of the
server. -/
theorem C5_send_by_ready_state_witness :
    (ws.send "Ping from client!" load).1.transmitted = load.transmitted ∧
    (ws.send "Ping from client!" load).2
      = Completion.throw "InvalidStateError" ∧
    (ws.send "Ping from client!" (run [Event.wsOpen, Event.wsClose] load)).2
      = Completion.normal ∧
    (ws.send "Ping from client!" (run [Event.wsOpen] load)).1.transmitted
      = (run [Event.wsOpen] load).transmitted ++ ["Ping from client!"] ∧
    (ws.send "Ping from client!"
      (closingHandshake (run [Event.wsOpen] load))).2 = Completion.normal :=
  ⟨((C5_send_by_ready_state "Ping from client!" load).1 (by decide)).1,
   (C5_send_by_ready_state "Ping from client!" load).2.1 rfl,
   (C5_send_by_ready_state "Ping from client!"
      (run [Event.wsOpen, Event.wsClose] load)).2.2.1 rfl,
   ((C5_send_by_ready_state "Ping from client!"
      (run [Event.wsOpen] load)).2.2.2.1 rfl).2,
   (C5_send_by_ready_state "Ping from client!"
      (closingHandshake (run [Event.wsOpen] load))).2.2.2.2 rfl⟩

/-- C6, as stated, fails: a timer tick on the freshly loaded script, whose
socket is still connecting, ends the timer callback with an uncaught
`InvalidStateError`. -/
theorem C6_tick_while_connecting_throws :
    load.readyState = ReadyState.Connecting ∧
    (deliver Event.timerTick load).2 = Completion.throw "InvalidStateError" ∧
    completions [Event.timerTick, Event.wsOpen, Event.timerTick] load =
      [Completion.throw "InvalidStateError", Completion.normal,
       Completion.normal] := by
  refine ⟨rfl, by decide, by decide⟩

/-- C6, amended: nothing in the script catches an error of the transport.
The `onopen`, `onmessage` and `onclose` handlers always complete normally;
the timer callback ends with an uncaught `InvalidStateError` exactly when
it fires while the socket is still connecting, and completes normally on an
open or closed socket. -/
theorem C6_uncaught_exactly_on_connecting_tick (e : Event) (w : World) :
    (deliver e w).2 =
      if e = Event.timerTick ∧ w.readyState = ReadyState.Connecting ∧
          w.intervals ≠ [] then
        Completion.throw "InvalidStateError"
      else Completion.normal := by
  cases e <;> cases h : w.readyState <;>
    simp [deliver, ws.onopen, ws.onmessage, ws.onclose, intervalCallback,
      andThen, console.log, ws.send, established, h] <;>
    split <;> simp_all

/-- C7: for every event sequence exactly one socket has been constructed
(the one of line 3), and once a close event has been handled the socket is
closed after any further events: it is never connecting or open again. -/
theorem C7_one_connection_and_closed_is_final (es1 es2 : List Event) :
    (run es1 load).sockets = [url] ∧
    (run (es1 ++ Event.wsClose :: es2) load).sockets = [url] ∧
    (run (es1 ++ Event.wsClose :: es2) load).readyState
      = ReadyState.Closed := by
  refine ⟨by rw [run_sockets, load_sockets],
    by rw [run_sockets, load_sockets], ?_⟩
  rw [run_append, run_cons]
  exact run_closed _ _ (by rw [deliver_readyState])

/-- C8, as stated, fails: after a successful open and a close by the server
the socket is closed, not connecting, also after a later tick; still only
one socket has been constructed and only the one interval is scheduled. -/
theorem C8_no_second_attempt :
    (run [Event.wsOpen] load).readyState = ReadyState.Open ∧
    (run [Event.wsOpen, Event.wsClose] load).readyState
      = ReadyState.Closed ∧
    (run [Event.wsOpen, Event.wsClose, Event.timerTick] load).readyState
      ≠ ReadyState.Connecting ∧
    (run [Event.wsOpen, Event.wsClose, Event.timerTick] load).sockets
      = [url] ∧
    (run [Event.wsOpen, Event.wsClose, Event.timerTick] load).intervals
      = [intervalMs] := by
  refine ⟨rfl, rfl, by decide, rfl, rfl⟩

/-- C8, amended: when the connection is open and the server closes it, the
client goes Open → Closed and stays closed: handling the close only logs
"Disconnected from server"; it constructs no socket and schedules nothing,
so no second connection attempt follows, whatever events come later. -/
theorem C8_close_only_logs (pre post : List Event)
    (h : (run pre load).readyState = ReadyState.Open) :
    ((run pre load).readyState, (run (pre ++ [Event.wsClose]) load).readyState)
      = (ReadyState.Open, ReadyState.Closed) ∧
    (deliver Event.wsClose (run pre load)).1 =
      { run pre load with
        readyState := ReadyState.Closed,
        calls := (run pre load).calls ++
          [Call.log ["Disconnected from server"]] } ∧
    (run (pre ++ Event.wsClose :: post) load).readyState
      = ReadyState.Closed ∧
    (run (pre ++ Event.wsClose :: post) load).sockets = [url] ∧
    (run (pre ++ Event.wsClose :: post) load).intervals = [intervalMs] := by
  refine ⟨?_, rfl, ?_, by rw [run_sockets, load_sockets],
    by rw [run_intervals, load_intervals]⟩
  · rw [h, run_append, run_cons, run_nil, deliver_readyState]
  · rw [run_append, run_cons]
    exact run_closed _ _ (by rw [deliver_readyState])

/-- Witness for C8: the connection opens, the server closes it, and a timer
tick follows. -/
theorem C8_close_only_logs_witness :
    ((run [Event.wsOpen] load).readyState,
      (run ([Event.wsOpen] ++ [Event.wsClose]) load).readyState)
      = (ReadyState.Open, ReadyState.Closed) ∧
    (deliver Event.wsClose (run [Event.wsOpen] load)).1 =
      { run [Event.wsOpen] load with
        readyState := ReadyState.Closed,
        calls := (run [Event.wsOpen] load).calls ++
          [Call.log ["Disconnected from server"]] } ∧
    (run ([Event.wsOpen] ++ Event.wsClose :: [Event.timerTick]) load).readyState
      = ReadyState.Closed ∧
    (run ([Event.wsOpen] ++ Event.wsClose :: [Event.timerTick]) load).sockets
      = [url] ∧
    (run ([Event.wsOpen] ++ Event.wsClose :: [Event.timerTick]) load).intervals
      = [intervalMs] :=
  C8_close_only_logs [Event.wsOpen] [Event.timerTick] rfl

/-- C9: for every event sequence the console holds exactly the entries of
the socket events, in order: "Connected to WebSocket server" per open,
("Received:", data) per message with the data unchanged, "Disconnected from
server" per close, nothing for a tick or a send.  Its length is the number
of non-tick events, and handling a message or a close issues no send. -/
theorem C9_console_is_image_of_events (es : List Event) :
    console (run es load) = es.filterMap expectedLogEntry ∧
    (console (run es load)).length
      = es.countP (fun e => decide (e ≠ Event.timerTick)) ∧
    (∀ (w : World) (data : String),
      sends (deliver (Event.wsMessage data) w).1 = sends w) ∧
    (∀ w : World, sends (deliver Event.wsClose w).1 = sends w) := by
  have hc : console (run es load) = es.filterMap expectedLogEntry := by
    rw [console_run]
    have : console load = [] := rfl
    simp [this]
  refine ⟨hc, ?_, ?_, ?_⟩
  · rw [hc, expected_length]
  · intro w data
    rw [sends_deliver]
    simp
  · intro w
    rw [sends_deliver]
    simp

/-- C10: a run is a sequence of steps, each an event dispatched to the
script or the arrival of the Close frame of the server (which makes an open
socket closing without any event).  For every run whose events respect the
transport protocol, what the script gets transmitted is either nothing, or
starts with "Hello from client!", holds it exactly once, and continues with
"Ping from client!" only; the number of pings transmitted is the number of
timer ticks that fire while the socket is open.  That number is the number
of ticks between the open event and the first Close frame or close event
after it, and the transmitted sequence is exactly the greeting followed by
that many pings when the run has an open event, and empty otherwise. -/
theorem C10_transmitted_shape (ss : List Step)
    (h : respectsProtocol (scriptEvents ss) = true) :
    ((runSteps ss load).transmitted = [] ∨
      ((runSteps ss load).transmitted.head? = some "Hello from client!" ∧
       (runSteps ss load).transmitted.count "Hello from client!" = 1 ∧
       ∀ x ∈ (runSteps ss load).transmitted.tail, x = "Ping from client!")) ∧
    (runSteps ss load).transmitted.count "Ping from client!"
      = openTicks ss load ∧
    openTicks ss load = ticksAfterOpen ss ∧
    (runSteps ss load).transmitted =
      (if Event.wsOpen ∈ scriptEvents ss then
        "Hello from client!" ::
          List.replicate (ticksAfterOpen ss) "Ping from client!"
      else []) := by
  have hne : ("Ping from client!" == "Hello from client!") = false := by
    decide
  have hne2 : ("Hello from client!" == "Ping from client!") = false := by
    decide
  obtain ⟨h1, h2⟩ := transmitted_connecting ss load rfl (by decide) h
  have h0 : (runSteps ss load).transmitted =
      (if Event.wsOpen ∈ scriptEvents ss then
        "Hello from client!" ::
          List.replicate (ticksAfterOpen ss) "Ping from client!"
      else []) := h1
  refine ⟨?_, ?_, h2, h0⟩
  · by_cases ho : Event.wsOpen ∈ scriptEvents ss
    · right
      rw [h0, if_pos ho]
      refine ⟨rfl, ?_, ?_⟩
      · simp [List.count_cons, List.count_replicate, hne]
      · intro x hx
        exact List.eq_of_mem_replicate hx
    · left
      rw [h0, if_neg ho]
  · rw [h2, h0]
    by_cases ho : Event.wsOpen ∈ scriptEvents ss
    · rw [if_pos ho]
      simp [List.count_cons, List.count_replicate, hne2]
    · rw [if_neg ho, ticksAfterOpen_no_open ss ho]
      rfl

/-- Witness for C10: two ticks before the open event, one tick while the
socket is open, one tick after the Close frame of the server and one after
the close event: the greeting and one ping are transmitted. -/
theorem C10_transmitted_shape_witness :
    respectsProtocol (scriptEvents closingRun) = true ∧
    (runSteps closingRun load).transmitted
      = ["Hello from client!", "Ping from client!"] ∧
    (runSteps closingRun load).transmitted.count "Ping from client!"
      = openTicks closingRun load ∧
    openTicks closingRun load = 1 :=
  ⟨by decide,
   (C10_transmitted_shape closingRun (by decide)).2.2.2.trans (by decide),
   (C10_transmitted_shape closingRun (by decide)).2.1,
   (C10_transmitted_shape closingRun (by decide)).2.2.1.trans (by decide)⟩

end DebugClient
